import Mathlib

/-!
Verification of the polykube-cni-plugin node bootstrap code.

Go byte slices (net.IP, net.IPMask, net.HardwareAddr) are embedded as
List Nat, each element a byte value below 256. Go big.Int based address
arithmetic (the containernetworking ip.NextIP / ip.PrevIP helpers) is
embedded through bytesToNat / natToBytes, which mirror big.Int.SetBytes
and big.Int.Bytes (minimal big-endian representation). External
collaborators (the Kubernetes API, netlink queries, net.ParseCIDR,
net.ParseIP and the polycube REST API) are modelled as explicit inputs:
the functions under verification receive the data those calls would
return.
-/

/-- big.Int.SetBytes: interpret a big-endian byte slice as a Nat. -/
def bytesToNat (bs : List Nat) : Nat :=
  bs.foldl (fun a b => a * 256 + b) 0

/-- Helper for natToBytes, structurally recursive on a fuel argument so
that it evaluates by kernel reduction; the fuel is always sufficient
because the value shrinks by a factor of 256 each step. -/
def natToBytesAux : Nat → Nat → List Nat
  | _, 0 => []
  | 0, _ + 1 => []
  | fuel + 1, v + 1 => natToBytesAux fuel ((v + 1) / 256) ++ [(v + 1) % 256]

/-- big.Int.Bytes: minimal big-endian byte representation of a Nat
(the empty slice for 0). -/
def natToBytes (n : Nat) : List Nat :=
  natToBytesAux n n

/-- The 12-byte v4-in-v6 prefix used by Go net.IP for 16-byte IPv4
addresses. -/
def v4InV6 : List Nat := [0, 0, 0, 0, 0, 0, 0, 0, 0, 0, 255, 255]

/-- Go net.IP.To4: a 4-byte address is returned unchanged; a 16-byte
v4-in-v6 mapped address is shortened to its last 4 bytes; anything else
yields nil. -/
def goTo4 (ip : List Nat) : Option (List Nat) :=
  if ip.length = 4 then some ip
  else if ip.length = 16 ∧ ip.take 12 = v4InV6 then some (ip.drop 12)
  else none

/-- Go net.IP.To16: a 4-byte address is prefixed with v4InV6; a 16-byte
address is returned unchanged; anything else yields nil. -/
def goTo16 (ip : List Nat) : Option (List Nat) :=
  if ip.length = 4 then some (v4InV6 ++ ip)
  else if ip.length = 16 then some ip
  else none

/-- Go net.IP.Equal: bytewise equality after normalising mixed 4/16 byte
representations of the same IPv4 address. -/
def goIPEqual (ip x : List Nat) : Bool :=
  if ip.length = x.length then ip = x
  else if ip.length = 4 ∧ x.length = 16 then x.take 12 = v4InV6 ∧ ip = x.drop 12
  else if ip.length = 16 ∧ x.length = 4 then ip.take 12 = v4InV6 ∧ ip.drop 12 = x
  else false

/-- The ipToInt helper of the containernetworking ip package: To4 first,
then To16, then big.Int.SetBytes (SetBytes of nil gives 0). -/
def ipToInt (ip : List Nat) : Nat :=
  match goTo4 ip with
  | some v => bytesToNat v
  | none =>
    match goTo16 ip with
    | some v => bytesToNat v
    | none => 0

/-- ip.NextIP: successor address through big.Int arithmetic. -/
def goNextIP (ip : List Nat) : List Nat :=
  natToBytes (ipToInt ip + 1)

/-- ip.PrevIP: predecessor address through big.Int arithmetic;
big.Int.Bytes returns the magnitude, hence the natAbs. -/
def goPrevIP (ip : List Nat) : List Nat :=
  natToBytes ((ipToInt ip : Int) - 1).natAbs

/-- Go *net.IPNet: an address together with a mask. -/
structure GoIPNet where
  ip : List Nat
  mask : List Nat
deriving DecidableEq, Repr

/-- The GwInfo type of the plugin: an IP-with-mask and a MAC; the nil Go
HardwareAddr is the empty list. -/
structure GwInfo where
  ipnet : GoIPNet
  mac : List Nat
deriving DecidableEq, Repr

/-- Decidable equality for Except values, so that concrete runs of the
embedded functions can be checked by decide. -/
instance exceptDecEq {ε α : Type} [DecidableEq ε] [DecidableEq α] :
    DecidableEq (Except ε α) := fun x y =>
  match x, y with
  | .ok a, .ok b =>
    if h : a = b then isTrue (by rw [h])
    else isFalse (by intro he; injection he; exact h (by assumption))
  | .error a, .error b =>
    if h : a = b then isTrue (by rw [h])
    else isFalse (by intro he; injection he; exact h (by assumption))
  | .ok _, .error _ => isFalse (by intro h; exact Except.noConfusion h)
  | .error _, .ok _ => isFalse (by intro h; exact Except.noConfusion h)

-- Sanity lemmas about the byte representation.

theorem natToBytesAux_zero (fuel : Nat) : natToBytesAux fuel 0 = [] := by
  cases fuel <;> rfl

theorem natToBytesAux_congr (f g v : Nat) (hf : v ≤ f) (hg : v ≤ g) :
    natToBytesAux f v = natToBytesAux g v := by
  induction f generalizing g v with
  | zero =>
    have : v = 0 := Nat.le_zero.mp hf
    subst this
    rw [natToBytesAux_zero, natToBytesAux_zero]
  | succ f ih =>
    match v, g with
    | 0, g => rw [natToBytesAux_zero, natToBytesAux_zero]
    | v + 1, g + 1 =>
      show natToBytesAux f ((v + 1) / 256) ++ _ = natToBytesAux g ((v + 1) / 256) ++ _
      have hd : (v + 1) / 256 < v + 1 := Nat.div_lt_self (Nat.succ_pos v) (by norm_num)
      rw [ih g ((v + 1) / 256) (by omega) (by omega)]

theorem natToBytes_pos (v : Nat) (hv : 0 < v) :
    natToBytes v = natToBytes (v / 256) ++ [v % 256] := by
  match v, hv with
  | v + 1, _ =>
    show natToBytesAux (v + 1) (v + 1) = _
    show natToBytesAux v ((v + 1) / 256) ++ [(v + 1) % 256] = _
    have hd : (v + 1) / 256 < v + 1 := Nat.div_lt_self (Nat.succ_pos v) (by norm_num)
    rw [natToBytesAux_congr v ((v + 1) / 256) ((v + 1) / 256) (by omega) (le_refl _)]
    rfl

theorem bytesToNat_append_one (xs : List Nat) (b : Nat) :
    bytesToNat (xs ++ [b]) = bytesToNat xs * 256 + b := by
  unfold bytesToNat
  rw [List.foldl_append]
  rfl

theorem bytesToNat_natToBytes (v : Nat) : bytesToNat (natToBytes v) = v := by
  induction v using Nat.strong_induction_on with
  | _ v ih =>
    rcases Nat.eq_zero_or_pos v with h0 | hpos
    · subst h0; rfl
    · rw [natToBytes_pos v hpos, bytesToNat_append_one,
        ih (v / 256) (Nat.div_lt_self hpos (by norm_num))]
      omega

theorem natToBytes_len_le (k : Nat) : ∀ v : Nat, v < 256 ^ k → (natToBytes v).length ≤ k := by
  induction k with
  | zero =>
    intro v hv
    have : v = 0 := by simpa using hv
    subst this
    simp [natToBytes, natToBytesAux]
  | succ k ih =>
    intro v hv
    rcases Nat.eq_zero_or_pos v with h0 | hpos
    · subst h0
      simp [natToBytes, natToBytesAux]
    · rw [natToBytes_pos v hpos]
      have hlt : v / 256 < 256 ^ k := by
        rw [Nat.div_lt_iff_lt_mul (by norm_num : 0 < 256)]
        calc v < 256 ^ (k + 1) := hv
        _ = 256 ^ k * 256 := by ring
      have := ih (v / 256) hlt
      simp only [List.length_append, List.length_cons, List.length_nil]
      omega

theorem natToBytes_len_ge (k : Nat) : ∀ v : Nat, 256 ^ k ≤ v → k + 1 ≤ (natToBytes v).length := by
  induction k with
  | zero =>
    intro v hv
    have hpos : 0 < v := by simpa using hv
    rw [natToBytes_pos v hpos]
    simp
  | succ k ih =>
    intro v hv
    have hpos : 0 < v := lt_of_lt_of_le (Nat.pos_pow_of_pos _ (by norm_num)) hv
    rw [natToBytes_pos v hpos]
    have hge : 256 ^ k ≤ v / 256 := by
      rw [Nat.le_div_iff_mul_le (by norm_num : 0 < 256)]
      calc 256 ^ k * 256 = 256 ^ (k + 1) := by ring
      _ ≤ v := hv
    have := ih (v / 256) hge
    simp only [List.length_append, List.length_cons, List.length_nil]
    omega

theorem natToBytes_len_four (v : Nat) (h1 : 2 ^ 24 ≤ v) (h2 : v < 2 ^ 32) :
    (natToBytes v).length = 4 := by
  have hle := natToBytes_len_le 4 v (by norm_num at h2 ⊢; omega)
  have hge := natToBytes_len_ge 3 v (by norm_num at h1 ⊢; omega)
  omega

theorem ipToInt_of_len4 (ip : List Nat) (h : ip.length = 4) : ipToInt ip = bytesToNat ip := by
  simp [ipToInt, goTo4, h]

/-- The broadcast-address loop of CalcNodePodDefaultGateway: each output
byte is the subnet byte OR-ed with the complement of the mask byte. The
Go loop ranges over the subnet IP bytes and assumes a 4-byte IPv4 address
(guaranteed by ParseNodePodCIDR); on a longer address it would index out
of range. -/
def broadcastIP (ip mask : List Nat) : List Nat :=
  List.zipWith (fun a m => a ||| (255 ^^^ m)) ip mask

/-- CalcNodePodDefaultGateway: the pod default gateway is the address
preceding the subnet broadcast address, carrying the subnet mask; the Go
code never takes an error path (it always returns a nil error) and never
sets the MAC field, which stays the nil HardwareAddr. -/
def CalcNodePodDefaultGateway (podCIDR : GoIPNet) : Except String GwInfo :=
  let subBroadcastIP := broadcastIP podCIDR.ip podCIDR.mask
  let gwIP := goPrevIP subBroadcastIP
  .ok { ipnet := { ip := gwIP, mask := podCIDR.mask }, mac := [] }

/-- C1: for every IPv4 pod CIDR (4-byte network address and mask, with a
nonzero broadcast address so that its predecessor exists),
CalcNodePodDefaultGateway returns a GwInfo whose IP denotes the broadcast
address (network OR-ed with the host mask) minus one and whose mask is
the input CIDR mask. -/
theorem CalcNodePodDefaultGateway_returns_broadcast_pred (podCIDR : GoIPNet)
    (hip : podCIDR.ip.length = 4) (hmask : podCIDR.mask.length = 4)
    (hb : 0 < bytesToNat (broadcastIP podCIDR.ip podCIDR.mask)) :
    ∃ g, CalcNodePodDefaultGateway podCIDR = .ok g ∧
      bytesToNat g.ipnet.ip = bytesToNat (broadcastIP podCIDR.ip podCIDR.mask) - 1 ∧
      g.ipnet.mask = podCIDR.mask := by
  refine ⟨_, rfl, ?_, rfl⟩
  show bytesToNat (goPrevIP (broadcastIP podCIDR.ip podCIDR.mask)) =
    bytesToNat (broadcastIP podCIDR.ip podCIDR.mask) - 1
  have hlen : (broadcastIP podCIDR.ip podCIDR.mask).length = 4 := by
    simp [broadcastIP, hip, hmask]
  rw [goPrevIP, ipToInt_of_len4 _ hlen]
  have habs : ((bytesToNat (broadcastIP podCIDR.ip podCIDR.mask) : Int) - 1).natAbs =
      bytesToNat (broadcastIP podCIDR.ip podCIDR.mask) - 1 := by omega
  rw [habs, bytesToNat_natToBytes]

/-- Witness for C1 at pod CIDR 10.10.3.0/24, whose derived gateway is
10.10.3.254/24. -/
theorem CalcNodePodDefaultGateway_returns_broadcast_pred_witness :
    (([10, 10, 3, 0] : List Nat).length = 4) ∧
    (([255, 255, 255, 0] : List Nat).length = 4) ∧
    0 < bytesToNat (broadcastIP [10, 10, 3, 0] [255, 255, 255, 0]) ∧
    (∃ g, CalcNodePodDefaultGateway ⟨[10, 10, 3, 0], [255, 255, 255, 0]⟩ = .ok g ∧
      bytesToNat g.ipnet.ip = bytesToNat (broadcastIP [10, 10, 3, 0] [255, 255, 255, 0]) - 1 ∧
      g.ipnet.mask = [255, 255, 255, 0]) ∧
    CalcNodePodDefaultGateway ⟨[10, 10, 3, 0], [255, 255, 255, 0]⟩ =
      .ok ⟨⟨[10, 10, 3, 254], [255, 255, 255, 0]⟩, []⟩ :=
  ⟨by decide, by decide, by decide,
    CalcNodePodDefaultGateway_returns_broadcast_pred
      ⟨[10, 10, 3, 0], [255, 255, 255, 0]⟩ (by decide) (by decide) (by decide),
    by decide⟩

/-- C10: CalcNodePodDefaultGateway never returns an error for any 4-byte
IPv4 input CIDR, and the returned GwInfo always carries the nil (empty)
MAC. -/
theorem CalcNodePodDefaultGateway_total_nil_mac (podCIDR : GoIPNet)
    (hip : podCIDR.ip.length = 4) (hmask : podCIDR.mask.length = 4) :
    ∃ g, CalcNodePodDefaultGateway podCIDR = .ok g ∧ g.mac = [] :=
  ⟨_, rfl, rfl⟩

/-- Witness for C10 at pod CIDR 10.10.3.0/24. -/
theorem CalcNodePodDefaultGateway_total_nil_mac_witness :
    (([10, 10, 3, 0] : List Nat).length = 4) ∧
    (([255, 255, 255, 0] : List Nat).length = 4) ∧
    ∃ g, CalcNodePodDefaultGateway ⟨[10, 10, 3, 0], [255, 255, 255, 0]⟩ = .ok g ∧ g.mac = [] :=
  ⟨by decide, by decide,
    CalcNodePodDefaultGateway_total_nil_mac
      ⟨[10, 10, 3, 0], [255, 255, 255, 0]⟩ (by decide) (by decide)⟩

/-- A Kubernetes node address entry; parsedIP models the result of the
external net.ParseIP call on the address string (none for a nil result). -/
structure NodeAddress where
  addrType : String
  parsedIP : Option (List Nat)
deriving DecidableEq, Repr

/-- The slice of the Kubernetes v1.Node object that the plugin reads:
the node name, the status addresses, and the result of the external
net.ParseCIDR call on node.Spec.PodCIDR (none when parsing fails). -/
structure KNode where
  name : String
  addresses : List NodeAddress
  podCIDRResult : Option GoIPNet
deriving DecidableEq, Repr

/-- An ASCII decimal digit. -/
def isDig (c : Char) : Bool :=
  48 ≤ c.toNat && c.toNat ≤ 57

/-- Value of a list of decimal digit characters. -/
def digitsToNat (cs : List Char) : Nat :=
  cs.foldl (fun a c => a * 10 + (c.toNat - 48)) 0

/-- Go strconv.Atoi on a 64-bit platform: an optional sign followed by at
least one ASCII digit; out-of-range values yield a range error, which the
caller treats the same as a syntax error. -/
def goAtoi (s : String) : Option Int :=
  match s.data with
  | [] => none
  | c :: rest =>
    let ds := if c = '-' ∨ c = '+' then rest else c :: rest
    if ds = [] then none
    else if ds.all isDig then
      let n : Int := if c = '-' then -(digitsToNat ds : Int) else (digitsToNat ds : Int)
      if n < -(2 ^ 63) ∨ 2 ^ 63 - 1 < n then none else some n
    else none

/-- Does one character list start with another. -/
def listStarts : List Char → List Char → Bool
  | _, [] => true
  | [], _ :: _ => false
  | a :: as, b :: bs => a = b && listStarts as bs

/-- Go strings.TrimPrefix applied to the fixed "worker" pattern: drop the
first six characters when the name starts with worker, otherwise return
the name unchanged. -/
def stripWorker (s : String) : String :=
  if listStarts s.data "worker".data then String.mk (s.data.drop 6) else s

/-- The advancing loop of CalcNodeVtepIPNet: apply ip.NextIP n times. -/
def advanceIP : Nat → List Nat → List Nat
  | 0, ip => ip
  | n + 1, ip => advanceIP n (goNextIP ip)

/-- CalcNodeVtepIPNet: parse the worker ordinal out of the node name with
strconv.Atoi (an error there is the AddressDerivationError of the spec),
then advance the VTEP pool base address that many times, keeping the pool
mask. A negative parsed ordinal runs the Go loop zero times. -/
def CalcNodeVtepIPNet (node : KNode) (vtepCIDR : GoIPNet) : Except String GoIPNet :=
  match goAtoi (stripWorker node.name) with
  | none => .error "failed to extract cluster node number for Vtep IP evaluation"
  | some n => .ok { ip := advanceIP n.toNat vtepCIDR.ip, mask := vtepCIDR.mask }

/-- The spec-side notion of a decimal integer string: an optional sign
followed by at least one decimal digit. -/
def isDecIntStr (s : String) : Bool :=
  match s.data with
  | [] => false
  | c :: rest =>
    let ds := if c = '-' ∨ c = '+' then rest else c :: rest
    !ds.isEmpty && ds.all isDig

theorem goAtoi_none_of_not_decimal (s : String) (h : isDecIntStr s = false) :
    goAtoi s = none := by
  unfold isDecIntStr at h
  unfold goAtoi
  match hdata : s.data with
  | [] => rfl
  | c :: rest =>
    rw [hdata] at h
    simp only [hdata]
    by_cases hsign : c = '-' ∨ c = '+'
    · simp only [hsign, if_true] at h ⊢
      match rest with
      | [] => rfl
      | d :: ds =>
        simp only [Bool.and_eq_false_iff] at h
        rcases h with h | h
        · simp [List.isEmpty] at h
        · simp [h]
    · simp only [hsign, if_false] at h ⊢
      simp only [Bool.and_eq_false_iff] at h
      rcases h with h | h
      · simp [List.isEmpty] at h
      · simp [h]

theorem advanceIP_num (n : Nat) : ∀ ip : List Nat, ip.length = 4 →
    2 ^ 24 ≤ bytesToNat ip → bytesToNat ip + n < 2 ^ 32 →
    (advanceIP n ip).length = 4 ∧ bytesToNat (advanceIP n ip) = bytesToNat ip + n := by
  induction n with
  | zero => intro ip h1 _ _; exact ⟨h1, by simp [advanceIP]⟩
  | succ n ih =>
    intro ip h1 h2 h3
    have hnext : goNextIP ip = natToBytes (bytesToNat ip + 1) := by
      rw [goNextIP, ipToInt_of_len4 ip h1]
    have hlen : (goNextIP ip).length = 4 := by
      rw [hnext]
      exact natToBytes_len_four _ (by omega) (by omega)
    have hval : bytesToNat (goNextIP ip) = bytesToNat ip + 1 := by
      rw [hnext, bytesToNat_natToBytes]
    have hstep : advanceIP (n + 1) ip = advanceIP n (goNextIP ip) := rfl
    obtain ⟨hl, hv⟩ := ih (goNextIP ip) hlen (by omega) (by omega)
    exact ⟨by rw [hstep]; exact hl, by rw [hstep, hv, hval]; omega⟩

/-- C2: VTEP derivation. Whenever the node name yields ordinal n
(Atoi of the name with the worker pattern stripped), the result is the
pool base advanced n times with the pool mask kept; numerically the
result is base + n whenever the pool can hold it; equal (pool, name)
inputs give equal outputs; the result is strictly increasing in the
ordinal within the pool; and every node name whose remainder after
stripping the worker pattern is not a decimal integer yields an error. -/
theorem CalcNodeVtepIPNet_spec (vtep : GoIPNet) (hlen : vtep.ip.length = 4)
    (hlo : 2 ^ 24 ≤ bytesToNat vtep.ip) :
    (∀ (node : KNode) (n : Nat), goAtoi (stripWorker node.name) = some (n : Int) →
      CalcNodeVtepIPNet node vtep = .ok ⟨advanceIP n vtep.ip, vtep.mask⟩) ∧
    (∀ (node : KNode) (n : Nat), goAtoi (stripWorker node.name) = some (n : Int) →
      bytesToNat vtep.ip + n < 2 ^ 32 →
      ∃ out, CalcNodeVtepIPNet node vtep = .ok out ∧
        bytesToNat out.ip = bytesToNat vtep.ip + n ∧ out.mask = vtep.mask) ∧
    (∀ p q : KNode, p.name = q.name →
      CalcNodeVtepIPNet p vtep = CalcNodeVtepIPNet q vtep) ∧
    (∀ (n m : Nat) (p q : KNode) (op oq : GoIPNet),
      goAtoi (stripWorker p.name) = some (n : Int) →
      goAtoi (stripWorker q.name) = some (m : Int) →
      n < m → bytesToNat vtep.ip + m < 2 ^ 32 →
      CalcNodeVtepIPNet p vtep = .ok op → CalcNodeVtepIPNet q vtep = .ok oq →
      bytesToNat op.ip < bytesToNat oq.ip) ∧
    (∀ node : KNode, isDecIntStr (stripWorker node.name) = false →
      ∃ e, CalcNodeVtepIPNet node vtep = .error e) := by
  have part1 : ∀ (node : KNode) (n : Nat), goAtoi (stripWorker node.name) = some (n : Int) →
      CalcNodeVtepIPNet node vtep = .ok ⟨advanceIP n vtep.ip, vtep.mask⟩ := by
    intro node n h
    unfold CalcNodeVtepIPNet
    rw [h]
    simp [Int.toNat_ofNat]
  have part2 : ∀ (node : KNode) (n : Nat), goAtoi (stripWorker node.name) = some (n : Int) →
      bytesToNat vtep.ip + n < 2 ^ 32 →
      ∃ out, CalcNodeVtepIPNet node vtep = .ok out ∧
        bytesToNat out.ip = bytesToNat vtep.ip + n ∧ out.mask = vtep.mask := by
    intro node n h hcap
    obtain ⟨_, hv⟩ := advanceIP_num n vtep.ip hlen hlo hcap
    exact ⟨⟨advanceIP n vtep.ip, vtep.mask⟩, part1 node n h, hv, rfl⟩
  refine ⟨part1, part2, ?_, ?_, ?_⟩
  · intro p q hname
    unfold CalcNodeVtepIPNet
    rw [hname]
  · intro n m p q op oq hp hq hnm hcap hop hoq
    obtain ⟨op', hop', hvp, _⟩ := part2 p n hp (by omega)
    obtain ⟨oq', hoq', hvq, _⟩ := part2 q m hq (by omega)
    rw [hop] at hop'
    rw [hoq] at hoq'
    injection hop' with e1
    injection hoq' with e2
    rw [← e1] at hvp
    rw [← e2] at hvq
    omega
  · intro node h
    unfold CalcNodeVtepIPNet
    rw [goAtoi_none_of_not_decimal _ h]
    exact ⟨_, rfl⟩

/-- Witness for C2 with pool 10.18.0.0/16: node worker3 yields
10.18.0.3/16 and node master0 yields an error. -/
theorem CalcNodeVtepIPNet_spec_witness :
    (([10, 18, 0, 0] : List Nat).length = 4) ∧
    (2 ^ 24 ≤ bytesToNat [10, 18, 0, 0]) ∧
    CalcNodeVtepIPNet ⟨"worker3", [], none⟩ ⟨[10, 18, 0, 0], [255, 255, 0, 0]⟩ =
      .ok ⟨[10, 18, 0, 3], [255, 255, 0, 0]⟩ ∧
    ∃ e, CalcNodeVtepIPNet ⟨"master0", [], none⟩ ⟨[10, 18, 0, 0], [255, 255, 0, 0]⟩ =
      .error e := by
  have h := CalcNodeVtepIPNet_spec ⟨[10, 18, 0, 0], [255, 255, 0, 0]⟩ (by decide) (by decide)
  refine ⟨by decide, by decide, ?_, ?_⟩
  · have h1 := h.1 ⟨"worker3", [], none⟩ 3 (by decide)
    rw [h1]
    decide
  · exact h.2.2.2.2 ⟨"master0", [], none⟩ (by decide)

theorem goTo4_len (ip ip4 : List Nat) (h : goTo4 ip = some ip4) : ip4.length = 4 := by
  unfold goTo4 at h
  by_cases h4 : ip.length = 4
  · simp only [h4, if_true] at h
    injection h with he
    rw [← he]
    exact h4
  · simp only [h4, if_false] at h
    by_cases h16 : ip.length = 16 ∧ ip.take 12 = v4InV6
    · simp only [h16, if_true] at h
      injection h with he
      rw [← he]
      simp [List.length_drop, h16.1]
    · simp [h16] at h

/-- ParseNodePodCIDR: the node-advertised pod CIDR string goes through
the external net.ParseCIDR (its result is the podCIDRResult field);
parsing failure is an error, a network address with no 4-byte form
(To4 nil) is an error, and on success the CIDR IP is replaced by its
4-byte form. -/
def ParseNodePodCIDR (node : KNode) : Except String GoIPNet :=
  match node.podCIDRResult with
  | none => .error "failed to parse cluster node Pod CIDR"
  | some podCIDR =>
    match goTo4 podCIDR.ip with
    | none => .error "failed to parse cluster node Pod CIDR: unsupported IPv6 Pod CIDR"
    | some ip4 => .ok { ip := ip4, mask := podCIDR.mask }

/-- C8: pod-subnet parsing fails, returning no CIDR, whenever the
advertised string is unparsable (ParseCIDR failed) or the parsed network
address is not representable as IPv4; it succeeds exactly otherwise, and
every returned CIDR carries a 4-byte IPv4 address. -/
theorem ParseNodePodCIDR_spec (node : KNode) :
    ((node.podCIDRResult = none ∨
        ∃ c, node.podCIDRResult = some c ∧ goTo4 c.ip = none) →
      ∃ e, ParseNodePodCIDR node = .error e) ∧
    (∀ c ip4, node.podCIDRResult = some c → goTo4 c.ip = some ip4 →
      ParseNodePodCIDR node = .ok ⟨ip4, c.mask⟩) ∧
    (∀ out, ParseNodePodCIDR node = .ok out → out.ip.length = 4) := by
  refine ⟨?_, ?_, ?_⟩
  · intro h
    rcases h with h | ⟨c, hc, h4⟩
    · have he : ParseNodePodCIDR node = .error "failed to parse cluster node Pod CIDR" := by
        simp [ParseNodePodCIDR, h]
      exact ⟨_, he⟩
    · have he : ParseNodePodCIDR node =
          .error "failed to parse cluster node Pod CIDR: unsupported IPv6 Pod CIDR" := by
        simp [ParseNodePodCIDR, hc, h4]
      exact ⟨_, he⟩
  · intro c ip4 hc h4
    simp [ParseNodePodCIDR, hc, h4]
  · intro out hout
    unfold ParseNodePodCIDR at hout
    match hres : node.podCIDRResult with
    | none => simp [hres] at hout
    | some c =>
      simp only [hres] at hout
      match h4 : goTo4 c.ip with
      | none => simp [h4] at hout
      | some ip4 =>
        simp only [h4] at hout
        injection hout with he
        rw [← he]
        exact goTo4_len c.ip ip4 h4

/-- Witness for C8: an unparsable pod CIDR yields an error; the CIDR
10.10.1.0/24 parses to a 4-byte address. -/
theorem ParseNodePodCIDR_spec_witness :
    (∃ e, ParseNodePodCIDR ⟨"worker1", [], none⟩ = .error e) ∧
    ParseNodePodCIDR ⟨"worker1", [], some ⟨[10, 10, 1, 0], [255, 255, 255, 0]⟩⟩ =
      .ok ⟨[10, 10, 1, 0], [255, 255, 255, 0]⟩ ∧
    (GoIPNet.mk [10, 10, 1, 0] [255, 255, 255, 0]).ip.length = 4 :=
  ⟨(ParseNodePodCIDR_spec ⟨"worker1", [], none⟩).1 (Or.inl rfl),
    (ParseNodePodCIDR_spec _).2.1 ⟨[10, 10, 1, 0], [255, 255, 255, 0]⟩ [10, 10, 1, 0]
      rfl (by decide),
    (ParseNodePodCIDR_spec ⟨"worker1", [], some ⟨[10, 10, 1, 0], [255, 255, 255, 0]⟩⟩).2.2
      ⟨[10, 10, 1, 0], [255, 255, 255, 0]⟩ (by decide)⟩

/-- Hex digit value, as accepted by the Go net package xtoi helper. -/
def hexVal (c : Char) : Option Nat :=
  if 48 ≤ c.toNat ∧ c.toNat ≤ 57 then some (c.toNat - 48)
  else if 97 ≤ c.toNat ∧ c.toNat ≤ 102 then some (c.toNat - 87)
  else if 65 ≤ c.toNat ∧ c.toNat ≤ 70 then some (c.toNat - 55)
  else none

/-- Go net xtoi2: the first two characters as a hex byte; when the input
is longer than two characters the third must equal e. -/
def xtoi2 (s : List Char) (e : Char) : Option Nat :=
  match s with
  | a :: b :: rest =>
    match hexVal a, hexVal b with
    | some x, some y =>
      match rest with
      | [] => some (x * 16 + y)
      | c :: _ => if c = e then some (x * 16 + y) else none
    | _, _ => none
  | _ => none

/-- The colon/dash loop of Go net.ParseMAC: n groups of two hex digits,
each group followed by the separator except the last, advancing three
characters per group. -/
def parseColonGroups (sep : Char) : Nat → List Char → Option (List Nat)
  | 0, _ => some []
  | n + 1, s =>
    match xtoi2 s sep with
    | none => none
    | some b =>
      match parseColonGroups sep n (s.drop 3) with
      | none => none
      | some bs => some (b :: bs)

/-- The dot loop of Go net.ParseMAC: groups of four hex digits separated
by dots, two bytes per group, advancing five characters per group. -/
def parseDotGroups : Nat → List Char → Option (List Nat)
  | 0, _ => some []
  | k + 1, s =>
    match xtoi2 (s.take 2) (Char.ofNat 0), xtoi2 (s.drop 2) '.' with
    | some b1, some b2 =>
      match parseDotGroups k (s.drop 5) with
      | none => none
      | some bs => some (b1 :: b2 :: bs)
    | _, _ => none

/-- Go net.ParseMAC, character-list form: accepts 6, 8 or 20 byte
addresses written with colon or dash separated two-digit groups, or dot
separated four-digit groups. -/
def goParseMACChars (cs : List Char) : Option (List Nat) :=
  if cs.length < 14 then none
  else if cs.getD 2 ' ' = ':' ∨ cs.getD 2 ' ' = '-' then
    if (cs.length + 1) % 3 ≠ 0 then none
    else if (cs.length + 1) / 3 ≠ 6 ∧ (cs.length + 1) / 3 ≠ 8 ∧ (cs.length + 1) / 3 ≠ 20 then none
    else parseColonGroups (cs.getD 2 ' ') ((cs.length + 1) / 3) cs
  else if cs.getD 4 ' ' = '.' then
    if (cs.length + 1) % 5 ≠ 0 then none
    else if 2 * ((cs.length + 1) / 5) ≠ 6 ∧ 2 * ((cs.length + 1) / 5) ≠ 8 ∧
        2 * ((cs.length + 1) / 5) ≠ 20 then none
    else parseDotGroups (2 * ((cs.length + 1) / 5) / 2) cs
  else none

/-- Go net.ParseMAC on a string. -/
def goParseMAC (s : String) : Option (List Nat) :=
  goParseMACChars s.data

theorem parseColonGroups_len (sep : Char) (n : Nat) : ∀ s bs,
    parseColonGroups sep n s = some bs → bs.length = n := by
  induction n with
  | zero => intro s bs h; injection h with he; rw [← he]; rfl
  | succ n ih =>
    intro s bs h
    unfold parseColonGroups at h
    match hx : xtoi2 s sep with
    | none => rw [hx] at h; exact absurd h (by simp)
    | some b =>
      rw [hx] at h
      match hr : parseColonGroups sep n (s.drop 3) with
      | none => rw [hr] at h; exact absurd h (by simp)
      | some bs' =>
        rw [hr] at h
        injection h with he
        rw [← he]
        simp [ih _ _ hr]

theorem parseDotGroups_len (k : Nat) : ∀ s bs,
    parseDotGroups k s = some bs → bs.length = 2 * k := by
  induction k with
  | zero => intro s bs h; injection h with he; rw [← he]; rfl
  | succ k ih =>
    intro s bs h
    unfold parseDotGroups at h
    match hx : xtoi2 (s.take 2) (Char.ofNat 0), hy : xtoi2 (s.drop 2) '.' with
    | none, _ => rw [hx] at h; exact absurd h (by simp)
    | some b1, none => rw [hx, hy] at h; exact absurd h (by simp)
    | some b1, some b2 =>
      rw [hx, hy] at h
      match hr : parseDotGroups k (s.drop 5) with
      | none => rw [hr] at h; exact absurd h (by simp)
      | some bs' =>
        rw [hr] at h
        injection h with he
        rw [← he]
        simp only [List.length_cons]
        rw [ih _ _ hr]
        omega

theorem goParseMACChars_len (cs : List Char) (m : List Nat)
    (h : goParseMACChars cs = some m) :
    m.length = 6 ∨ m.length = 8 ∨ m.length = 20 := by
  unfold goParseMACChars at h
  by_cases h14 : cs.length < 14
  · rw [if_pos h14] at h
    exact absurd h (by simp)
  · rw [if_neg h14] at h
    by_cases hsep : cs.getD 2 ' ' = ':' ∨ cs.getD 2 ' ' = '-'
    · rw [if_pos hsep] at h
      by_cases hmod : (cs.length + 1) % 3 ≠ 0
      · rw [if_pos hmod] at h
        exact absurd h (by simp)
      · rw [if_neg hmod] at h
        by_cases hn : (cs.length + 1) / 3 ≠ 6 ∧ (cs.length + 1) / 3 ≠ 8 ∧
            (cs.length + 1) / 3 ≠ 20
        · rw [if_pos hn] at h
          exact absurd h (by simp)
        · rw [if_neg hn] at h
          have := parseColonGroups_len _ _ _ _ h
          omega
    · rw [if_neg hsep] at h
      by_cases hdot : cs.getD 4 ' ' = '.'
      · rw [if_pos hdot] at h
        by_cases hmod : (cs.length + 1) % 5 ≠ 0
        · rw [if_pos hmod] at h
          exact absurd h (by simp)
        · rw [if_neg hmod] at h
          by_cases hn : 2 * ((cs.length + 1) / 5) ≠ 6 ∧ 2 * ((cs.length + 1) / 5) ≠ 8 ∧
              2 * ((cs.length + 1) / 5) ≠ 20
          · rw [if_pos hn] at h
            exact absurd h (by simp)
          · rw [if_neg hn] at h
            have := parseDotGroups_len _ _ _ h
            omega
      · rw [if_neg hdot] at h
        exact absurd h (by simp)

theorem goParseMAC_len (s : String) (m : List Nat) (h : goParseMAC s = some m) :
    m.length = 6 ∨ m.length = 8 ∨ m.length = 20 :=
  goParseMACChars_len s.data m h

/-- A port of the polycube router as returned by the REST read. -/
structure RouterPort where
  name : String
  mac : String
deriving DecidableEq, Repr

/-- The slice of the polycube router object the plugin reads. -/
structure Router where
  ports : List RouterPort
deriving DecidableEq, Repr

/-- GetNodePodDefaultGatewayMAC on an already retrieved router (the
REST read is external): scan the ports for the first one named to_br0
and parse its MAC; a missing port or an unparsable MAC is an error. -/
def GetNodePodDefaultGatewayMAC (r : Router) : Except String (List Nat) :=
  match r.ports.find? (fun port => port.name = "to_br0") with
  | some port =>
    match goParseMAC port.mac with
    | none => .error "failed to parse cluster node pod default gateway mac"
    | some routerMAC => .ok routerMAC
  | none => .error "failed to retrieve cluster node pod default gateway mac: to_br0 port not found"

/-- C9: pod-gateway MAC retrieval errors (returning no MAC at all)
whenever the queried router has no port named to_br0 or the first such
port's MAC string does not parse; it returns the parsed MAC exactly when
the first to_br0 port carries a well-formed MAC, and a returned MAC is
never the empty (nil) address. -/
theorem GetNodePodDefaultGatewayMAC_spec (r : Router) :
    ((∀ p ∈ r.ports, p.name ≠ "to_br0") →
      ∃ e, GetNodePodDefaultGatewayMAC r = .error e) ∧
    (∀ port, r.ports.find? (fun q => q.name = "to_br0") = some port →
      goParseMAC port.mac = none → ∃ e, GetNodePodDefaultGatewayMAC r = .error e) ∧
    (∀ port m, r.ports.find? (fun q => q.name = "to_br0") = some port →
      goParseMAC port.mac = some m → GetNodePodDefaultGatewayMAC r = .ok m) ∧
    ((∃ m, GetNodePodDefaultGatewayMAC r = .ok m) ↔
      ∃ port m, r.ports.find? (fun q => q.name = "to_br0") = some port ∧
        goParseMAC port.mac = some m) ∧
    (∀ m, GetNodePodDefaultGatewayMAC r = .ok m → m ≠ []) := by
  have hok : ∀ m, GetNodePodDefaultGatewayMAC r = .ok m →
      ∃ port, r.ports.find? (fun q => q.name = "to_br0") = some port ∧
        goParseMAC port.mac = some m := by
    intro m h
    unfold GetNodePodDefaultGatewayMAC at h
    match hf : r.ports.find? (fun q => q.name = "to_br0") with
    | none => simp only [hf] at h; exact absurd h (by simp)
    | some port =>
      simp only [hf] at h
      match hp : goParseMAC port.mac with
      | none => simp only [hp] at h; exact absurd h (by simp)
      | some m' =>
        simp only [hp] at h
        injection h with he
        exact ⟨port, hf, by rw [hp, he]⟩
  refine ⟨?_, ?_, ?_, ?_, ?_⟩
  · intro h
    have hf : r.ports.find? (fun q => q.name = "to_br0") = none := by
      rw [List.find?_eq_none]
      intro x hx
      simpa using h x hx
    have he : GetNodePodDefaultGatewayMAC r =
        .error "failed to retrieve cluster node pod default gateway mac: to_br0 port not found" := by
      unfold GetNodePodDefaultGatewayMAC
      rw [hf]
    exact ⟨_, he⟩
  · intro port hf hp
    have he : GetNodePodDefaultGatewayMAC r =
        .error "failed to parse cluster node pod default gateway mac" := by
      simp only [GetNodePodDefaultGatewayMAC, hf, hp]
    exact ⟨_, he⟩
  · intro port m hf hp
    simp only [GetNodePodDefaultGatewayMAC, hf, hp]
  · constructor
    · intro ⟨m, h⟩
      obtain ⟨port, hf, hp⟩ := hok m h
      exact ⟨port, m, hf, hp⟩
    · intro ⟨port, m, hf, hp⟩
      refine ⟨m, ?_⟩
      simp only [GetNodePodDefaultGatewayMAC, hf, hp]
  · intro m h
    obtain ⟨port, _, hp⟩ := hok m h
    have := goParseMAC_len port.mac m hp
    intro hnil
    rw [hnil] at this
    simp at this

/-- Witness for C9: a router without a to_br0 port errors; a to_br0 port
with MAC aa:bb:cc:dd:ee:ff yields that parsed MAC; a to_br0 port with a
malformed MAC errors. -/
theorem GetNodePodDefaultGatewayMAC_spec_witness :
    (∀ p ∈ (Router.mk [⟨"to_vxlan0", "aa:bb:cc:dd:ee:ff"⟩]).ports, p.name ≠ "to_br0") ∧
    (∃ e, GetNodePodDefaultGatewayMAC (Router.mk [⟨"to_vxlan0", "aa:bb:cc:dd:ee:ff"⟩]) =
      .error e) ∧
    GetNodePodDefaultGatewayMAC (Router.mk [⟨"to_br0", "aa:bb:cc:dd:ee:ff"⟩]) =
      .ok [170, 187, 204, 221, 238, 255] ∧
    (∃ e, GetNodePodDefaultGatewayMAC (Router.mk [⟨"to_br0", "nonsense"⟩]) = .error e) := by
  refine ⟨by decide, ?_, ?_, ?_⟩
  · exact (GetNodePodDefaultGatewayMAC_spec (Router.mk [⟨"to_vxlan0", "aa:bb:cc:dd:ee:ff"⟩])).1
      (by decide)
  · exact (GetNodePodDefaultGatewayMAC_spec (Router.mk [⟨"to_br0", "aa:bb:cc:dd:ee:ff"⟩])).2.2.1
      ⟨"to_br0", "aa:bb:cc:dd:ee:ff"⟩ [170, 187, 204, 221, 238, 255] (by decide) (by decide)
  · exact (GetNodePodDefaultGatewayMAC_spec (Router.mk [⟨"to_br0", "nonsense"⟩])).2.1
      ⟨"to_br0", "nonsense"⟩ (by decide) (by decide)

/-- A netlink link (network interface) with its name, index and the
IPv4 address list that netlink.AddrList would report for it. -/
structure Link where
  name : String
  index : Int
  addrs : List GoIPNet
deriving DecidableEq, Repr

/-- The plugin Iface type: an address-with-mask and the owning link. -/
structure Iface where
  ipnet : GoIPNet
  link : Link
deriving DecidableEq, Repr

/-- The internal-IP extraction loop shared by GetNodeExtIface and
addOtherNodes: take the first status address of type InternalIP and give
it to the external net.ParseIP; the result is nil (none) when no such
address exists or parsing fails. -/
def nodeInternalIP (node : KNode) : Option (List Nat) :=
  match node.addresses.find? (fun a => a.addrType = "InternalIP") with
  | some a => a.parsedIP
  | none => none

/-- GetNodeExtIface on the link list that netlink.LinkList would return:
resolve the node internal IP, then return the first link owning an
address equal to it, paired with that address; no match is an error. -/
def GetNodeExtIface (node : KNode) (links : List Link) : Except String Iface :=
  match nodeInternalIP node with
  | none => .error "failed to parse cluster node external interface IP"
  | some extIfaceIP =>
    match links.findSome? (fun link =>
        (link.addrs.find? (fun addr => goIPEqual addr.ip extIfaceIP)).map
          (fun addr => Iface.mk addr link)) with
    | some extIface => .ok extIface
    | none => .error "failed to retrieve cluster node external interface info"

theorem findSome?_append_first {α β : Type} (f : α → Option β) :
    ∀ (pre : List α) (x : α) (post : List α) (b : β),
    (∀ y ∈ pre, f y = none) → f x = some b →
    (pre ++ x :: post).findSome? f = some b := by
  intro pre
  induction pre with
  | nil =>
    intro x post b _ hx
    simp [List.findSome?, hx]
  | cons y pre ih =>
    intro x post b hpre hx
    have hy : f y = none := hpre y (by simp)
    simp only [List.cons_append, List.findSome?, hy]
    exact ih x post b (fun z hz => hpre z (by simp [hz])) hx

/-- C6: with the node internal IP resolved, external-interface lookup
returns the first enumerated link whose IPv4 address set contains that
IP, paired with the matching address and mask, even when earlier links
hold unrelated addresses; and it errors when no link owns the IP. -/
theorem GetNodeExtIface_spec (node : KNode) (links : List Link) (tgt : List Nat)
    (htgt : nodeInternalIP node = some tgt) :
    ((∀ l ∈ links, ∀ a ∈ l.addrs, goIPEqual a.ip tgt = false) →
      ∃ e, GetNodeExtIface node links = .error e) ∧
    (∀ (pre : List Link) (l : Link) (post : List Link) (a : GoIPNet),
      links = pre ++ l :: post →
      (∀ l' ∈ pre, ∀ a' ∈ l'.addrs, goIPEqual a'.ip tgt = false) →
      l.addrs.find? (fun addr => goIPEqual addr.ip tgt) = some a →
      GetNodeExtIface node links = .ok ⟨a, l⟩) := by
  constructor
  · intro h
    have hnone : links.findSome? (fun link =>
        (link.addrs.find? (fun addr => goIPEqual addr.ip tgt)).map
          (fun addr => Iface.mk addr link)) = none := by
      rw [List.findSome?_eq_none]
      intro l hl
      have : l.addrs.find? (fun addr => goIPEqual addr.ip tgt) = none := by
        rw [List.find?_eq_none]
        intro a ha
        simp [h l hl a ha]
      simp [this]
    have he : GetNodeExtIface node links =
        .error "failed to retrieve cluster node external interface info" := by
      simp only [GetNodeExtIface, htgt, hnone]
    exact ⟨_, he⟩
  · intro pre l post a hsplit hpre hfind
    have hsome : links.findSome? (fun link =>
        (link.addrs.find? (fun addr => goIPEqual addr.ip tgt)).map
          (fun addr => Iface.mk addr link)) = some ⟨a, l⟩ := by
      rw [hsplit]
      refine findSome?_append_first _ pre l post (⟨a, l⟩ : Iface) ?_ ?_
      · intro l' hl'
        have : l'.addrs.find? (fun addr => goIPEqual addr.ip tgt) = none := by
          rw [List.find?_eq_none]
          intro a' ha'
          simp [hpre l' hl' a' ha']
        simp [this]
      · simp [hfind]
    simp only [GetNodeExtIface, htgt, hsome]

/-- Witness for C6: internal IP 192.168.0.2 is owned by eth0 and not by
the earlier loopback; with only the loopback present the lookup errors. -/
theorem GetNodeExtIface_spec_witness :
    (nodeInternalIP ⟨"worker1", [⟨"Hostname", none⟩, ⟨"InternalIP", some [192, 168, 0, 2]⟩],
        none⟩ = some [192, 168, 0, 2]) ∧
    GetNodeExtIface ⟨"worker1", [⟨"Hostname", none⟩, ⟨"InternalIP", some [192, 168, 0, 2]⟩], none⟩
      [⟨"lo", 1, [⟨[127, 0, 0, 1], [255, 0, 0, 0]⟩]⟩,
       ⟨"eth0", 2, [⟨[192, 168, 0, 2], [255, 255, 255, 0]⟩]⟩] =
      .ok ⟨⟨[192, 168, 0, 2], [255, 255, 255, 0]⟩, ⟨"eth0", 2, [⟨[192, 168, 0, 2], [255, 255, 255, 0]⟩]⟩⟩ ∧
    ∃ e, GetNodeExtIface ⟨"worker1", [⟨"Hostname", none⟩, ⟨"InternalIP", some [192, 168, 0, 2]⟩], none⟩
      [⟨"lo", 1, [⟨[127, 0, 0, 1], [255, 0, 0, 0]⟩]⟩] = .error e := by
  refine ⟨by decide, ?_, ?_⟩
  · exact (GetNodeExtIface_spec _ _ [192, 168, 0, 2] (by decide)).2
      [⟨"lo", 1, [⟨[127, 0, 0, 1], [255, 0, 0, 0]⟩]⟩]
      ⟨"eth0", 2, [⟨[192, 168, 0, 2], [255, 255, 255, 0]⟩]⟩ []
      ⟨[192, 168, 0, 2], [255, 255, 255, 0]⟩ (by decide) (by decide) (by decide)
  · exact (GetNodeExtIface_spec _ _ [192, 168, 0, 2] (by decide)).1 (by decide)

/-- A netlink route as returned by netlink.RouteGet: egress link index
and next-hop (gateway) address. -/
structure GoRoute where
  linkIndex : Int
  gw : List Nat
deriving DecidableEq, Repr

/-- A netlink neighbor entry as returned by netlink.NeighList: IP and
link-layer address. -/
structure GoNeigh where
  ip : List Nat
  hw : List Nat
deriving DecidableEq, Repr

/-- GetNodeDefaultGateway on the data the external netlink queries would
return: routes is the RouteGet result for the probe address 1.0.0.0 and
neighs the IPv4 neighbor list of the external interface. Exactly one
route is required, its link index must equal the external interface
index, and the gateway MAC comes from the first neighbor whose IP equals
the route next hop (mask taken from the external interface address). -/
def GetNodeDefaultGateway (extIface : Iface) (routes : List GoRoute)
    (neighs : List GoNeigh) : Except String GwInfo :=
  match routes with
  | [route] =>
    if route.linkIndex ≠ extIface.link.index then
      .error "the route link index doesn't match the external interface link index"
    else
      match neighs.find? (fun neigh => goIPEqual neigh.ip route.gw) with
      | some neigh => .ok ⟨⟨route.gw, extIface.ipnet.mask⟩, neigh.hw⟩
      | none => .error "failed to retrieve the cluster node default gateway"
  | _ => .error "failed to determine a single node default route"

/-- C5: uplink-gateway resolution fails exactly when the probe query
returns a number of routes different from one, or the single route's
egress link index differs from the external interface index, or no
neighbor entry matches the route next hop; otherwise it returns the next
hop with the external interface mask and the matching neighbor MAC. -/
theorem GetNodeDefaultGateway_spec (extIface : Iface) (routes : List GoRoute)
    (neighs : List GoNeigh) :
    ((∃ e, GetNodeDefaultGateway extIface routes neighs = .error e) ↔
      (routes.length ≠ 1 ∨
        (∃ r, routes = [r] ∧ r.linkIndex ≠ extIface.link.index) ∨
        (∃ r, routes = [r] ∧ r.linkIndex = extIface.link.index ∧
          ∀ n ∈ neighs, goIPEqual n.ip r.gw = false))) ∧
    (∀ (r : GoRoute) (n : GoNeigh), routes = [r] →
      r.linkIndex = extIface.link.index →
      neighs.find? (fun x => goIPEqual x.ip r.gw) = some n →
      GetNodeDefaultGateway extIface routes neighs =
        .ok ⟨⟨r.gw, extIface.ipnet.mask⟩, n.hw⟩) := by
  constructor
  · match routes with
    | [] =>
      constructor
      · intro _
        exact Or.inl (by simp)
      · intro _
        exact ⟨_, rfl⟩
    | r1 :: r2 :: rest =>
      constructor
      · intro _
        exact Or.inl (by simp)
      · intro _
        exact ⟨_, rfl⟩
    | [route] =>
      constructor
      · intro ⟨e, he⟩
        by_cases hli : route.linkIndex ≠ extIface.link.index
        · exact Or.inr (Or.inl ⟨route, rfl, hli⟩)
        · refine Or.inr (Or.inr ⟨route, rfl, by omega, ?_⟩)
          simp only [GetNodeDefaultGateway, if_neg hli] at he
          match hf : neighs.find? (fun neigh => goIPEqual neigh.ip route.gw) with
          | some n => rw [hf] at he; exact absurd he (by simp)
          | none =>
            intro n hn
            have := List.find?_eq_none.mp hf n hn
            simpa using this
      · intro h
        rcases h with h | ⟨r, hr, hli⟩ | ⟨r, hr, hli, hno⟩
        · simp at h
        · injection hr with hr1 _
          subst hr1
          have he : GetNodeDefaultGateway extIface [route] neighs =
              .error "the route link index doesn't match the external interface link index" := by
            simp only [GetNodeDefaultGateway, if_pos hli]
          exact ⟨_, he⟩
        · injection hr with hr1 _
          subst hr1
          have hf : neighs.find? (fun neigh => goIPEqual neigh.ip route.gw) = none := by
            rw [List.find?_eq_none]
            intro n hn
            simp [hno n hn]
          have he : GetNodeDefaultGateway extIface [route] neighs =
              .error "failed to retrieve the cluster node default gateway" := by
            simp only [GetNodeDefaultGateway,
              if_neg (by omega : ¬route.linkIndex ≠ extIface.link.index), hf]
          exact ⟨_, he⟩
  · intro r n hr hli hf
    subst hr
    simp only [GetNodeDefaultGateway,
      if_neg (by omega : ¬r.linkIndex ≠ extIface.link.index), hf]

/-- Witness for C5: a single route out of link 2 with next hop
192.168.0.1 present in the neighbor cache resolves to that gateway MAC;
two routes, a link mismatch, and an empty neighbor cache each fail. -/
theorem GetNodeDefaultGateway_spec_witness :
    (GetNodeDefaultGateway
        ⟨⟨[192, 168, 0, 2], [255, 255, 255, 0]⟩, ⟨"eth0", 2, []⟩⟩
        [⟨2, [192, 168, 0, 1]⟩]
        [⟨[192, 168, 0, 1], [1, 2, 3, 4, 5, 6]⟩] =
      .ok ⟨⟨[192, 168, 0, 1], [255, 255, 255, 0]⟩, [1, 2, 3, 4, 5, 6]⟩) ∧
    (∃ e, GetNodeDefaultGateway
        ⟨⟨[192, 168, 0, 2], [255, 255, 255, 0]⟩, ⟨"eth0", 2, []⟩⟩
        [⟨2, [192, 168, 0, 1]⟩, ⟨2, [192, 168, 0, 1]⟩] [] = .error e) ∧
    (∃ e, GetNodeDefaultGateway
        ⟨⟨[192, 168, 0, 2], [255, 255, 255, 0]⟩, ⟨"eth0", 2, []⟩⟩
        [⟨7, [192, 168, 0, 1]⟩] [] = .error e) ∧
    (∃ e, GetNodeDefaultGateway
        ⟨⟨[192, 168, 0, 2], [255, 255, 255, 0]⟩, ⟨"eth0", 2, []⟩⟩
        [⟨2, [192, 168, 0, 1]⟩] [] = .error e) := by
  refine ⟨?_, ?_, ?_, ?_⟩
  · exact (GetNodeDefaultGateway_spec
      ⟨⟨[192, 168, 0, 2], [255, 255, 255, 0]⟩, ⟨"eth0", 2, []⟩⟩
      [⟨2, [192, 168, 0, 1]⟩] [⟨[192, 168, 0, 1], [1, 2, 3, 4, 5, 6]⟩]).2
      ⟨2, [192, 168, 0, 1]⟩ ⟨[192, 168, 0, 1], [1, 2, 3, 4, 5, 6]⟩
      rfl (by decide) (by decide)
  · exact (GetNodeDefaultGateway_spec
      ⟨⟨[192, 168, 0, 2], [255, 255, 255, 0]⟩, ⟨"eth0", 2, []⟩⟩
      [⟨2, [192, 168, 0, 1]⟩, ⟨2, [192, 168, 0, 1]⟩] []).1.mpr (Or.inl (by decide))
  · exact (GetNodeDefaultGateway_spec
      ⟨⟨[192, 168, 0, 2], [255, 255, 255, 0]⟩, ⟨"eth0", 2, []⟩⟩
      [⟨7, [192, 168, 0, 1]⟩] []).1.mpr
      (Or.inr (Or.inl ⟨⟨7, [192, 168, 0, 1]⟩, rfl, by decide⟩))
  · exact (GetNodeDefaultGateway_spec
      ⟨⟨[192, 168, 0, 2], [255, 255, 255, 0]⟩, ⟨"eth0", 2, []⟩⟩
      [⟨2, [192, 168, 0, 1]⟩] []).1.mpr
      (Or.inr (Or.inr ⟨⟨2, [192, 168, 0, 1]⟩, rfl, by decide, by decide⟩))

/-- The netlink neighbor (FDB) entry AddNode appends. -/
structure NeighEntry where
  linkIndex : Int
  state : Nat
  ip : List Nat
  hw : List Nat
deriving DecidableEq, Repr

/-- netlink.NUD_PERMANENT. -/
def NUD_PERMANENT : Nat := 128

/-- The route AddNode installs on the polycube router through
CreateRouterRouteByID; the Go code serialises network and next hop to
strings for the REST call, the model keeps their values. -/
structure RouteEffect where
  router : String
  network : GoIPNet
  nexthop : List Nat
  iface : String
deriving DecidableEq, Repr

/-- A provisioning side effect issued towards the kernel or the router. -/
inductive Effect where
  | fdb (e : NeighEntry)
  | route (r : RouteEffect)
deriving DecidableEq, Repr

/-- AddNode: look up the vxlan link by name (netlink.LinkByName,
modelled as a lookup function), then append one permanent FDB entry on
that link mapping the peer node IP to the all-zero placeholder MAC, and
install one route on router r0 with destination the peer pod CIDR, next
hop the peer VTEP IP and egress port to_vxlan0. The NeighAppend and
route-creation calls themselves are external writes; the model records
what is issued. -/
def AddNode (vxlanIfName : String) (linkByName : String → Option Link)
    (nodeIP : List Nat) (nodePodCIDR : GoIPNet) (nodeVtepIP : List Nat) :
    Except String (List Effect) :=
  match linkByName vxlanIfName with
  | none => .error "failed to retrieve the cluster node vxlan interface"
  | some link =>
    .ok [Effect.fdb ⟨link.index, NUD_PERMANENT, nodeIP, [0, 0, 0, 0, 0, 0]⟩,
         Effect.route ⟨"r0", nodePodCIDR, nodeVtepIP, "to_vxlan0"⟩]

/-- C4: every FDB entry issued by AddNode is in permanent state, maps
the peer node's IP, sits on the resolved VXLAN link, and carries the
all-zero placeholder link-layer address (the VXLAN flood entry used as a
broadcast-style placeholder); and AddNode does issue such an entry. -/
theorem AddNode_fdb_permanent_placeholder (vxlanIfName : String)
    (linkByName : String → Option Link) (nodeIP : List Nat) (nodePodCIDR : GoIPNet)
    (nodeVtepIP : List Nat) (link : Link)
    (hlink : linkByName vxlanIfName = some link) :
    ∀ effs, AddNode vxlanIfName linkByName nodeIP nodePodCIDR nodeVtepIP = .ok effs →
      (∃ e, Effect.fdb e ∈ effs) ∧
      (∀ e, Effect.fdb e ∈ effs →
        e.state = NUD_PERMANENT ∧ e.hw = [0, 0, 0, 0, 0, 0] ∧
        e.ip = nodeIP ∧ e.linkIndex = link.index) := by
  intro effs h
  simp only [AddNode, hlink] at h
  injection h with he
  constructor
  · exact ⟨⟨link.index, NUD_PERMANENT, nodeIP, [0, 0, 0, 0, 0, 0]⟩, by rw [← he]; simp⟩
  · intro e hmem
    rw [← he] at hmem
    simp only [List.mem_cons, List.mem_singleton] at hmem
    rcases hmem with h1 | h1 | h1
    · injection h1 with h2
      subst h2
      exact ⟨rfl, rfl, rfl, rfl⟩
    · exact absurd h1 (by simp)
    · exact absurd h1 (by simp)

/-- Witness for C4 at a concrete vxlan link and peer. -/
theorem AddNode_fdb_permanent_placeholder_witness :
    ((fun n => if n = "vxlan0" then some (Link.mk "vxlan0" 5 []) else none) "vxlan0" =
      some (Link.mk "vxlan0" 5 [])) ∧
    (AddNode "vxlan0" (fun n => if n = "vxlan0" then some (Link.mk "vxlan0" 5 []) else none)
        [192, 168, 0, 3] ⟨[10, 10, 2, 0], [255, 255, 255, 0]⟩ [10, 18, 0, 2] =
      .ok [Effect.fdb ⟨5, NUD_PERMANENT, [192, 168, 0, 3], [0, 0, 0, 0, 0, 0]⟩,
        Effect.route ⟨"r0", ⟨[10, 10, 2, 0], [255, 255, 255, 0]⟩, [10, 18, 0, 2], "to_vxlan0"⟩]) ∧
    ((∃ e, Effect.fdb e ∈
        [Effect.fdb ⟨5, NUD_PERMANENT, [192, 168, 0, 3], [0, 0, 0, 0, 0, 0]⟩,
         Effect.route ⟨"r0", ⟨[10, 10, 2, 0], [255, 255, 255, 0]⟩, [10, 18, 0, 2], "to_vxlan0"⟩]) ∧
      (∀ e, Effect.fdb e ∈
        [Effect.fdb ⟨5, NUD_PERMANENT, [192, 168, 0, 3], [0, 0, 0, 0, 0, 0]⟩,
         Effect.route ⟨"r0", ⟨[10, 10, 2, 0], [255, 255, 255, 0]⟩, [10, 18, 0, 2], "to_vxlan0"⟩] →
        e.state = NUD_PERMANENT ∧ e.hw = [0, 0, 0, 0, 0, 0] ∧
        e.ip = [192, 168, 0, 3] ∧ e.linkIndex = 5)) :=
  ⟨by decide, by decide,
    AddNode_fdb_permanent_placeholder "vxlan0"
      (fun n => if n = "vxlan0" then some (Link.mk "vxlan0" 5 []) else none)
      [192, 168, 0, 3] ⟨[10, 10, 2, 0], [255, 255, 255, 0]⟩ [10, 18, 0, 2]
      (Link.mk "vxlan0" 5 []) (by decide) _ (by decide)⟩

/-- The environment configuration fields addOtherNodes reads. -/
structure EnvConf where
  nodeName : String
  vxlanIfName : String
  vtepCIDR : GoIPNet
deriving DecidableEq, Repr

/-- The Go loop filter of addOtherNodes: the node name must carry the
worker pattern and differ from the local node name. -/
def isWorkerPeer (conf : EnvConf) (node : KNode) : Bool :=
  listStarts node.name.data "worker".data && node.name ≠ conf.nodeName

/-- Is an Except value a success. -/
def exceptIsOk {ε α : Type} : Except ε α → Bool
  | .ok _ => true
  | .error _ => false

/-- addOtherNodes over the listed cluster nodes: every node passing the
isWorkerPeer filter has its internal IP parsed (nil when absent), its
pod CIDR parsed and its VTEP derived, and AddNode is called for it; the
first error aborts the walk, keeping the effects already issued. -/
def addOtherNodes (conf : EnvConf) (linkByName : String → Option Link) :
    List KNode → List Effect × Option String
  | [] => ([], none)
  | node :: rest =>
    if isWorkerPeer conf node then
      match node.podCIDRResult with
      | none => ([], some "failed to parse cluster node podCIDR")
      | some nodePodCIDR =>
        match CalcNodeVtepIPNet node conf.vtepCIDR with
        | .error e => ([], some e)
        | .ok nodeVtepIPNet =>
          match AddNode conf.vxlanIfName linkByName ((nodeInternalIP node).getD [])
              nodePodCIDR nodeVtepIPNet.ip with
          | .error e => ([], some e)
          | .ok effs =>
            let next := addOtherNodes conf linkByName rest
            (effs ++ next.1, next.2)
    else addOtherNodes conf linkByName rest

/-- The pair of effects addOtherNodes issues for one worker peer. -/
def peerEffects (conf : EnvConf) (link : Link) (node : KNode) : List Effect :=
  [Effect.fdb ⟨link.index, NUD_PERMANENT, (nodeInternalIP node).getD [], [0, 0, 0, 0, 0, 0]⟩,
   Effect.route ⟨"r0", node.podCIDRResult.getD ⟨[], []⟩,
     ((CalcNodeVtepIPNet node conf.vtepCIDR).toOption.getD ⟨[], []⟩).ip, "to_vxlan0"⟩]

/-- Number of FDB effects for a given peer IP. -/
def fdbCountFor (effs : List Effect) (ip : List Nat) : Nat :=
  (effs.filter (fun e => match e with
    | Effect.fdb n => n.ip = ip
    | Effect.route _ => false)).length

/-- Number of route effects for a given destination CIDR. -/
def routeCountFor (effs : List Effect) (cidr : GoIPNet) : Nat :=
  (effs.filter (fun e => match e with
    | Effect.fdb _ => false
    | Effect.route r => r.network = cidr)).length

/-- C3 counterexample: a cluster holding the local node worker1 and a
peer node master0 (valid internal IP, pod CIDR and VTEP pool). The claim
requires exactly one FDB entry and one route for every non-local node,
hence for master0; the run issues none, because the loop also filters on
the worker name pattern. -/
theorem addOtherNodes_nonworker_peer_cex :
    ¬ ((addOtherNodes ⟨"worker1", "vxlan0", ⟨[10, 18, 0, 0], [255, 255, 0, 0]⟩⟩
          (fun n => if n = "vxlan0" then some (Link.mk "vxlan0" 5 []) else none)
          [⟨"worker1", [⟨"InternalIP", some [192, 168, 0, 2]⟩],
              some ⟨[10, 10, 1, 0], [255, 255, 255, 0]⟩⟩,
           ⟨"master0", [⟨"InternalIP", some [192, 168, 0, 5]⟩],
              some ⟨[10, 10, 7, 0], [255, 255, 255, 0]⟩⟩]).2 = none →
      fdbCountFor (addOtherNodes ⟨"worker1", "vxlan0", ⟨[10, 18, 0, 0], [255, 255, 0, 0]⟩⟩
          (fun n => if n = "vxlan0" then some (Link.mk "vxlan0" 5 []) else none)
          [⟨"worker1", [⟨"InternalIP", some [192, 168, 0, 2]⟩],
              some ⟨[10, 10, 1, 0], [255, 255, 255, 0]⟩⟩,
           ⟨"master0", [⟨"InternalIP", some [192, 168, 0, 5]⟩],
              some ⟨[10, 10, 7, 0], [255, 255, 255, 0]⟩⟩]).1 [192, 168, 0, 5] = 1) := by
  decide

/-- C3 (amended): over the cluster node list, reachability provisioning
issues exactly the two effects of peerEffects — one permanent FDB entry
on the VXLAN link and one router route (destination the peer pod CIDR,
next hop the peer VTEP IP, egress port to_vxlan0) — for every node whose
name has the worker pattern and that is not the local node, in list
order, and nothing for the local node or for non-worker nodes. -/
theorem addOtherNodes_worker_peers (conf : EnvConf)
    (linkByName : String → Option Link) (link : Link)
    (hlink : linkByName conf.vxlanIfName = some link) :
    ∀ nodes : List KNode,
      (∀ node ∈ nodes, isWorkerPeer conf node = true →
        node.podCIDRResult.isSome = true ∧
        exceptIsOk (CalcNodeVtepIPNet node conf.vtepCIDR) = true) →
      (addOtherNodes conf linkByName nodes).2 = none ∧
      (addOtherNodes conf linkByName nodes).1 =
        (nodes.filter (isWorkerPeer conf)).flatMap (peerEffects conf link) := by
  intro nodes
  induction nodes with
  | nil => intro _; exact ⟨rfl, rfl⟩
  | cons node rest ih =>
    intro h
    have ihr := ih (fun n hn hwp => h n (List.mem_cons_of_mem _ hn) hwp)
    by_cases hw : isWorkerPeer conf node = true
    · obtain ⟨hsome, hok⟩ := h node (by simp) hw
      obtain ⟨cidr, hcidr⟩ := Option.isSome_iff_exists.mp hsome
      match hv : CalcNodeVtepIPNet node conf.vtepCIDR with
      | .error e => rw [hv] at hok; exact absurd hok (by simp [exceptIsOk])
      | .ok v =>
        constructor
        · simp only [addOtherNodes, if_pos hw, hcidr, hv, AddNode, hlink]
          exact ihr.1
        · simp only [addOtherNodes, if_pos hw, hcidr, hv, AddNode, hlink]
          rw [List.filter_cons_of_pos hw, List.flatMap_cons, ihr.2]
          congr 1
          simp [peerEffects, hcidr, hv, Except.toOption]
    · constructor
      · simp only [addOtherNodes, if_neg hw]
        exact ihr.1
      · simp only [addOtherNodes, if_neg hw]
        rw [List.filter_cons_of_neg (by simpa using hw)]
        exact ihr.2

/-- Witness for C3 (amended): local node worker1, worker peer worker2
and non-worker node master0; the run issues exactly one FDB entry and
one route, both for worker2, and nothing for worker1 or master0. -/
theorem addOtherNodes_worker_peers_witness :
    ((fun n => if n = "vxlan0" then some (Link.mk "vxlan0" 5 []) else none)
        (EnvConf.mk "worker1" "vxlan0" ⟨[10, 18, 0, 0], [255, 255, 0, 0]⟩).vxlanIfName =
      some (Link.mk "vxlan0" 5 [])) ∧
    (∀ node ∈ [KNode.mk "worker1" [⟨"InternalIP", some [192, 168, 0, 2]⟩]
          (some ⟨[10, 10, 1, 0], [255, 255, 255, 0]⟩),
        KNode.mk "worker2" [⟨"InternalIP", some [192, 168, 0, 3]⟩]
          (some ⟨[10, 10, 2, 0], [255, 255, 255, 0]⟩),
        KNode.mk "master0" [⟨"InternalIP", some [192, 168, 0, 5]⟩]
          (some ⟨[10, 10, 7, 0], [255, 255, 255, 0]⟩)],
      isWorkerPeer (EnvConf.mk "worker1" "vxlan0" ⟨[10, 18, 0, 0], [255, 255, 0, 0]⟩) node = true →
        node.podCIDRResult.isSome = true ∧
        exceptIsOk (CalcNodeVtepIPNet node
          (EnvConf.mk "worker1" "vxlan0" ⟨[10, 18, 0, 0], [255, 255, 0, 0]⟩).vtepCIDR) = true) ∧
    ((addOtherNodes (EnvConf.mk "worker1" "vxlan0" ⟨[10, 18, 0, 0], [255, 255, 0, 0]⟩)
        (fun n => if n = "vxlan0" then some (Link.mk "vxlan0" 5 []) else none)
        [KNode.mk "worker1" [⟨"InternalIP", some [192, 168, 0, 2]⟩]
            (some ⟨[10, 10, 1, 0], [255, 255, 255, 0]⟩),
         KNode.mk "worker2" [⟨"InternalIP", some [192, 168, 0, 3]⟩]
            (some ⟨[10, 10, 2, 0], [255, 255, 255, 0]⟩),
         KNode.mk "master0" [⟨"InternalIP", some [192, 168, 0, 5]⟩]
            (some ⟨[10, 10, 7, 0], [255, 255, 255, 0]⟩)]).2 = none ∧
      (addOtherNodes (EnvConf.mk "worker1" "vxlan0" ⟨[10, 18, 0, 0], [255, 255, 0, 0]⟩)
        (fun n => if n = "vxlan0" then some (Link.mk "vxlan0" 5 []) else none)
        [KNode.mk "worker1" [⟨"InternalIP", some [192, 168, 0, 2]⟩]
            (some ⟨[10, 10, 1, 0], [255, 255, 255, 0]⟩),
         KNode.mk "worker2" [⟨"InternalIP", some [192, 168, 0, 3]⟩]
            (some ⟨[10, 10, 2, 0], [255, 255, 255, 0]⟩),
         KNode.mk "master0" [⟨"InternalIP", some [192, 168, 0, 5]⟩]
            (some ⟨[10, 10, 7, 0], [255, 255, 255, 0]⟩)]).1 =
        ([KNode.mk "worker1" [⟨"InternalIP", some [192, 168, 0, 2]⟩]
            (some ⟨[10, 10, 1, 0], [255, 255, 255, 0]⟩),
          KNode.mk "worker2" [⟨"InternalIP", some [192, 168, 0, 3]⟩]
            (some ⟨[10, 10, 2, 0], [255, 255, 255, 0]⟩),
          KNode.mk "master0" [⟨"InternalIP", some [192, 168, 0, 5]⟩]
            (some ⟨[10, 10, 7, 0], [255, 255, 255, 0]⟩)].filter
          (isWorkerPeer (EnvConf.mk "worker1" "vxlan0" ⟨[10, 18, 0, 0], [255, 255, 0, 0]⟩))).flatMap
          (peerEffects (EnvConf.mk "worker1" "vxlan0" ⟨[10, 18, 0, 0], [255, 255, 0, 0]⟩)
            (Link.mk "vxlan0" 5 []))) :=
  ⟨by decide, by decide,
    addOtherNodes_worker_peers
      (EnvConf.mk "worker1" "vxlan0" ⟨[10, 18, 0, 0], [255, 255, 0, 0]⟩)
      (fun n => if n = "vxlan0" then some (Link.mk "vxlan0" 5 []) else none)
      (Link.mk "vxlan0" 5 []) (by decide) _ (by decide)⟩

theorem foldl_byte_bound : ∀ (bs : List Nat) (a : Nat), (∀ b ∈ bs, b < 256) →
    bs.foldl (fun a b => a * 256 + b) a < (a + 1) * 256 ^ bs.length := by
  intro bs
  induction bs with
  | nil => intro a _; simp
  | cons b bs ih =>
    intro a h
    have hb : b < 256 := h b (by simp)
    have hrec := ih (a * 256 + b) (fun x hx => h x (by simp [hx]))
    calc List.foldl (fun a b => a * 256 + b) (a * 256 + b) bs
        < (a * 256 + b + 1) * 256 ^ bs.length := hrec
    _ ≤ ((a + 1) * 256) * 256 ^ bs.length :=
        Nat.mul_le_mul_right _ (by omega)
    _ = (a + 1) * 256 ^ (bs.length + 1) := by ring
    _ = (a + 1) * 256 ^ (b :: bs).length := by simp

theorem bytesToNat_lt (bs : List Nat) (h : ∀ b ∈ bs, b < 256) :
    bytesToNat bs < 256 ^ bs.length := by
  have := foldl_byte_bound bs 0 h
  simpa [bytesToNat] using this

theorem broadcastIP_bytes_lt : ∀ (ip mask : List Nat), (∀ b ∈ ip, b < 256) →
    (∀ b ∈ mask, b < 256) → ∀ b ∈ broadcastIP ip mask, b < 256 := by
  intro ip
  induction ip with
  | nil => intro mask _ _ b hb; simp [broadcastIP] at hb
  | cons a as ih =>
    intro mask hip hmask b hb
    match mask with
    | [] => simp [broadcastIP] at hb
    | m :: ms =>
      simp only [broadcastIP, List.zipWith_cons_cons, List.mem_cons] at hb
      rcases hb with hb | hb
      · subst hb
        have ha : a < 2 ^ 8 := by simpa using hip a (by simp)
        have hm : m < 2 ^ 8 := by simpa using hmask m (by simp)
        have hx : (255 ^^^ m) < 2 ^ 8 := Nat.xor_lt_two_pow (by norm_num) hm
        simpa using Nat.or_lt_two_pow ha hx
      · exact ih ms (fun x hx => hip x (by simp [hx]))
          (fun x hx => hmask x (by simp [hx])) b hb

/-- The node bootstrap state read by the config emitter: the pod CIDR
and the pod gateway info (whose MAC has been back-filled by the time the
file is written). -/
structure NodeInfo where
  podCIDR : GoIPNet
  podGwInfo : GwInfo
deriving DecidableEq, Repr

/-- The IPAM range record of the emitted CNI configuration. -/
structure CNIIpamRange where
  subnet : GoIPNet
  rangeStart : List Nat
  rangeEnd : List Nat
  gateway : List Nat
deriving DecidableEq, Repr

/-- The values CreateCNIConfFile writes into the JSON template. -/
structure CNIConf where
  mtu : Int
  vclustercidr : GoIPNet
  bridge : String
  gwIP : List Nat
  gwMAC : List Nat
  ipam : CNIIpamRange
deriving DecidableEq, Repr

/-- CreateCNIConfFile: the Go code serialises these values into the CNI
configuration JSON (the file write itself is external); the IPAM range
starts at NextIP of the pod subnet address, ends at PrevIP of the pod
gateway address, and its gateway is the pod gateway address. -/
def CreateCNIConfFile (mtu : Int) (vClusterCIDR : GoIPNet) (bridgeName : String)
    (nodeInfo : NodeInfo) : CNIConf :=
  { mtu := mtu
    vclustercidr := vClusterCIDR
    bridge := bridgeName
    gwIP := nodeInfo.podGwInfo.ipnet.ip
    gwMAC := nodeInfo.podGwInfo.mac
    ipam := { subnet := nodeInfo.podCIDR
              rangeStart := goNextIP nodeInfo.podCIDR.ip
              rangeEnd := goPrevIP nodeInfo.podGwInfo.ipnet.ip
              gateway := nodeInfo.podGwInfo.ipnet.ip } }

/-- C7: the emitted CNI configuration records an IPAM range over the pod
CIDR whose rangeStart denotes the pod network address plus one, whose
rangeEnd denotes the derived pod gateway address minus one, and whose
gateway is the derived pod gateway address. -/
theorem CreateCNIConfFile_ipam_range (mtu : Int) (vcc : GoIPNet) (bridge : String)
    (nodeInfo : NodeInfo) (gw : GwInfo)
    (hip4 : nodeInfo.podCIDR.ip.length = 4) (hmask4 : nodeInfo.podCIDR.mask.length = 4)
    (hipb : ∀ b ∈ nodeInfo.podCIDR.ip, b < 256)
    (hmb : ∀ b ∈ nodeInfo.podCIDR.mask, b < 256)
    (hgw : CalcNodePodDefaultGateway nodeInfo.podCIDR = .ok gw)
    (hginfo : nodeInfo.podGwInfo.ipnet = gw.ipnet)
    (hb : 2 ^ 24 < bytesToNat (broadcastIP nodeInfo.podCIDR.ip nodeInfo.podCIDR.mask)) :
    (CreateCNIConfFile mtu vcc bridge nodeInfo).ipam.subnet = nodeInfo.podCIDR ∧
    bytesToNat (CreateCNIConfFile mtu vcc bridge nodeInfo).ipam.rangeStart =
      bytesToNat nodeInfo.podCIDR.ip + 1 ∧
    bytesToNat (CreateCNIConfFile mtu vcc bridge nodeInfo).ipam.rangeEnd =
      bytesToNat gw.ipnet.ip - 1 ∧
    (CreateCNIConfFile mtu vcc bridge nodeInfo).ipam.gateway = gw.ipnet.ip := by
  have hbc4 : (broadcastIP nodeInfo.podCIDR.ip nodeInfo.podCIDR.mask).length = 4 := by
    simp [broadcastIP, hip4, hmask4]
  have hB32 : bytesToNat (broadcastIP nodeInfo.podCIDR.ip nodeInfo.podCIDR.mask) < 2 ^ 32 := by
    have hlt := bytesToNat_lt _ (broadcastIP_bytes_lt _ _ hipb hmb)
    rw [hbc4] at hlt
    norm_num at hlt ⊢
    omega
  have hgwip : gw.ipnet.ip =
      natToBytes (bytesToNat (broadcastIP nodeInfo.podCIDR.ip nodeInfo.podCIDR.mask) - 1) := by
    have h1 : CalcNodePodDefaultGateway nodeInfo.podCIDR =
        .ok ⟨⟨goPrevIP (broadcastIP nodeInfo.podCIDR.ip nodeInfo.podCIDR.mask),
          nodeInfo.podCIDR.mask⟩, []⟩ := rfl
    rw [h1] at hgw
    injection hgw with he
    rw [← he]
    show goPrevIP (broadcastIP nodeInfo.podCIDR.ip nodeInfo.podCIDR.mask) = _
    rw [goPrevIP, ipToInt_of_len4 _ hbc4]
    congr 1
    omega
  have hglen : gw.ipnet.ip.length = 4 := by
    rw [hgwip]
    exact natToBytes_len_four _ (by omega) (by omega)
  have hgval : bytesToNat gw.ipnet.ip =
      bytesToNat (broadcastIP nodeInfo.podCIDR.ip nodeInfo.podCIDR.mask) - 1 := by
    rw [hgwip, bytesToNat_natToBytes]
  refine ⟨rfl, ?_, ?_, ?_⟩
  · show bytesToNat (goNextIP nodeInfo.podCIDR.ip) = _
    rw [goNextIP, ipToInt_of_len4 _ hip4, bytesToNat_natToBytes]
  · show bytesToNat (goPrevIP nodeInfo.podGwInfo.ipnet.ip) = _
    rw [hginfo]
    rw [goPrevIP, ipToInt_of_len4 _ hglen, bytesToNat_natToBytes, hgval]
    omega
  · show nodeInfo.podGwInfo.ipnet.ip = gw.ipnet.ip
    rw [hginfo]

/-- Witness for C7 at pod CIDR 10.10.5.0/24: the emitted range is
10.10.5.1 to 10.10.5.253 with gateway 10.10.5.254. -/
theorem CreateCNIConfFile_ipam_range_witness :
    (CalcNodePodDefaultGateway ⟨[10, 10, 5, 0], [255, 255, 255, 0]⟩ =
      .ok ⟨⟨[10, 10, 5, 254], [255, 255, 255, 0]⟩, []⟩) ∧
    (2 ^ 24 < bytesToNat (broadcastIP [10, 10, 5, 0] [255, 255, 255, 0])) ∧
    (CreateCNIConfFile 1450 ⟨[10, 10, 0, 0], [255, 255, 0, 0]⟩ "br0"
        ⟨⟨[10, 10, 5, 0], [255, 255, 255, 0]⟩,
         ⟨⟨[10, 10, 5, 254], [255, 255, 255, 0]⟩, [1, 2, 3, 4, 5, 6]⟩⟩).ipam =
      ⟨⟨[10, 10, 5, 0], [255, 255, 255, 0]⟩, [10, 10, 5, 1], [10, 10, 5, 253],
        [10, 10, 5, 254]⟩ ∧
    (bytesToNat (CreateCNIConfFile 1450 ⟨[10, 10, 0, 0], [255, 255, 0, 0]⟩ "br0"
        ⟨⟨[10, 10, 5, 0], [255, 255, 255, 0]⟩,
         ⟨⟨[10, 10, 5, 254], [255, 255, 255, 0]⟩, [1, 2, 3, 4, 5, 6]⟩⟩).ipam.rangeStart =
      bytesToNat [10, 10, 5, 0] + 1 ∧
     bytesToNat (CreateCNIConfFile 1450 ⟨[10, 10, 0, 0], [255, 255, 0, 0]⟩ "br0"
        ⟨⟨[10, 10, 5, 0], [255, 255, 255, 0]⟩,
         ⟨⟨[10, 10, 5, 254], [255, 255, 255, 0]⟩, [1, 2, 3, 4, 5, 6]⟩⟩).ipam.rangeEnd =
      bytesToNat [10, 10, 5, 254] - 1) :=
  ⟨by decide, by decide, by decide,
    (CreateCNIConfFile_ipam_range 1450 ⟨[10, 10, 0, 0], [255, 255, 0, 0]⟩ "br0"
      ⟨⟨[10, 10, 5, 0], [255, 255, 255, 0]⟩,
       ⟨⟨[10, 10, 5, 254], [255, 255, 255, 0]⟩, [1, 2, 3, 4, 5, 6]⟩⟩
      ⟨⟨[10, 10, 5, 254], [255, 255, 255, 0]⟩, []⟩
      (by decide) (by decide) (by decide) (by decide) (by decide) (by decide)
      (by decide)).2.1,
    (CreateCNIConfFile_ipam_range 1450 ⟨[10, 10, 0, 0], [255, 255, 0, 0]⟩ "br0"
      ⟨⟨[10, 10, 5, 0], [255, 255, 255, 0]⟩,
       ⟨⟨[10, 10, 5, 254], [255, 255, 255, 0]⟩, [1, 2, 3, 4, 5, 6]⟩⟩
      ⟨⟨[10, 10, 5, 254], [255, 255, 255, 0]⟩, []⟩
      (by decide) (by decide) (by decide) (by decide) (by decide) (by decide)
      (by decide)).2.2.1⟩
